import Mathlib

/-!
Shallow embedding of the cluster subcommands of
`photon/command/clusters.go` (photon-controller-cli), centred on the
asynchronous readiness-wait loop `waitForCluster` and the mutating
commands `createCluster`, `resizeCluster` and `deleteCluster`.

Modelling conventions, taken from the source:
* The remote client call `client.Esxclient.Clusters.Get(id)` returns a
  pointer and an error.  When the call fails the returned pointer is nil
  (Go convention for `(cluster *photon.Cluster, err error)` named
  returns); a fetch is therefore either `FetchResult.ok c` (a cluster
  value) or `FetchResult.fail e` (an error string, no cluster value).
* `waitForCluster` executes `cluster, err = ...Get(id)` on every
  iteration, so the loop-local handle is overwritten by each fetch
  before it is ever read again; evaluating `cluster.State` after a
  failed fetch reads a nil pointer, which in Go is a runtime panic.
  That control path is modelled by the distinct outcome
  `WaitOutcome.nilDeref`.
* Wall-clock time: the only blocking operation inside the loop is
  `time.Sleep(taskPollDelay)`, so elapsed time when the guard
  `time.Since(start) < taskPollTimeout` is evaluated equals
  `taskPollDelaySec * (number of completed sleeps)`.  Since the number
  of sleeps before iteration `i` is `i`, iteration `i` runs exactly
  when `taskPollDelaySec * i < taskPollTimeoutSec`, i.e. when
  `i < maxPolls`; the loop is encoded structurally on the remaining
  iteration count `maxPolls - i`.
* The package-level flag `endAnimation` and the `wg.Wait()` join with
  the `displayTaskProgress` goroutine are recorded as bookkeeping in
  the result: `stopSignals` counts the executed `endAnimation = true`
  assignments and `joined` records whether `wg.Wait()` ran before the
  function returned.
-/

namespace PhotonCLI

/-- A remote cluster entity as observed by the CLI (the fields of
`photon.Cluster` that the commands under consideration read). -/
structure Cluster where
  id : String
  name : String
  state : String
  workerCount : Int
deriving DecidableEq, Repr

/-- Result of one `Clusters.Get(id)` call: a cluster value, or an error
with no cluster value (the Go SDK returns a nil pointer together with
the error). -/
inductive FetchResult where
  | ok (c : Cluster)
  | fail (e : String)
deriving DecidableEq, Repr

/-- `strings.ToUpper` restricted to the ASCII range, which covers every
state string compared by the source ("ERROR", "READY", ...). -/
def goUpChar (c : Char) : Char :=
  if 'a' ≤ c && c ≤ 'z' then Char.ofNat (c.toNat - 32) else c

/-- Model of `strings.ToUpper` on the strings this program compares. -/
def goToUpper (s : String) : String :=
  ⟨s.data.map goUpChar⟩

/-- `taskPollTimeout := 60 * time.Minute`, in seconds. -/
def taskPollTimeoutSec : Nat := 60 * 60

/-- `taskPollDelay := 2 * time.Second`, in seconds. -/
def taskPollDelaySec : Nat := 2

/-- `taskRetryCount := 3`. -/
def taskRetryCount : Nat := 3

/-- Number of loop iterations that start before the 60-minute guard
fails: iteration `i` runs iff `taskPollDelaySec * i < taskPollTimeoutSec`,
i.e. iff `i < maxPolls = 1800`. -/
def maxPolls : Nat := taskPollTimeoutSec / taskPollDelaySec

/-- The error built on the ERROR branch:
`fmt.Errorf("Cluster %s entered ERROR state", id)`. -/
def clusterErrorMsg (id : String) : String :=
  "Cluster " ++ id ++ " entered ERROR state"

/-- The error built when the loop guard fails:
`fmt.Errorf("Timed out while waiting for cluster to enter READY state")`. -/
def timeoutMsg : String :=
  "Timed out while waiting for cluster to enter READY state"

/-- How a `waitForCluster` run ends. -/
inductive WaitOutcome where
  /-- READY branch: `return` with the fetched cluster and nil error. -/
  | success (c : Cluster)
  /-- ERROR branch: `return` with the cluster-entered-ERROR error. -/
  | stateError (msg : String)
  /-- retry budget exceeded: `return` with the last fetch error. -/
  | fetchError (e : String)
  /-- loop guard failed: `return` with the timeout error. -/
  | timeout (msg : String)
  /-- runtime panic: `strings.ToUpper(cluster.State)` evaluated while
  the handle assigned by the failed fetch is nil. -/
  | nilDeref
deriving DecidableEq, Repr

/-- Result of a `waitForCluster` run plus execution bookkeeping. -/
structure WaitResult where
  outcome : WaitOutcome
  /-- number of `Clusters.Get` calls issued. -/
  fetches : Nat
  /-- number of executed `time.Sleep(taskPollDelay)` calls. -/
  sleeps : Nat
  /-- number of executed `endAnimation = true` assignments. -/
  stopSignals : Nat
  /-- whether `wg.Wait()` ran before the function returned. -/
  joined : Bool
deriving DecidableEq, Repr

/-- The polling loop of `waitForCluster` (clusters.go lines 729-757).
`fuel` is the number of iterations still allowed by the 60-minute
guard (`maxPolls - i`), `i` is the index of the next fetch, `numErr`
the accumulated fetch-failure count.  The Go variable `cluster` is not
loop state: every iteration overwrites it with the fetch result before
any read, so it is inlined into the two fetch cases.  On a failed fetch
with `numErr <= taskRetryCount` the source falls through to the
`switch strings.ToUpper(cluster.State)` with a nil handle. -/
def waitLoop (id : String) (seq : Nat → FetchResult) :
    Nat → Nat → Nat → WaitResult
  | 0, i, _ =>
    { outcome := .timeout timeoutMsg, fetches := i, sleeps := i,
      stopSignals := 1, joined := true }
  | fuel + 1, i, numErr =>
    match seq i with
    | .fail e =>
      if numErr + 1 > taskRetryCount then
        { outcome := .fetchError e, fetches := i + 1, sleeps := i,
          stopSignals := 1, joined := true }
      else
        { outcome := .nilDeref, fetches := i + 1, sleeps := i,
          stopSignals := 0, joined := false }
    | .ok c =>
      if goToUpper c.state = "ERROR" then
        { outcome := .stateError (clusterErrorMsg id), fetches := i + 1,
          sleeps := i, stopSignals := 1, joined := true }
      else if goToUpper c.state = "READY" then
        { outcome := .success c, fetches := i + 1, sleeps := i,
          stopSignals := 1, joined := true }
      else
        waitLoop id seq fuel (i + 1) numErr

/-- `waitForCluster(id)` driven by the fetch-result sequence `seq`
(`seq i` is what the i-th `Clusters.Get(id)` call returns). -/
def waitForCluster (id : String) (seq : Nat → FetchResult) : WaitResult :=
  waitLoop id seq maxPolls 0 0

/-- A fetch result that lets the loop continue: a successful fetch whose
state is neither ERROR nor READY (after `strings.ToUpper`). -/
def isNonTerminalOk : FetchResult → Bool
  | .ok c => !(goToUpper c.state == "ERROR") && !(goToUpper c.state == "READY")
  | .fail _ => false

/-- Sample cluster in a non-terminal state. -/
def creatingCluster : Cluster :=
  { id := "cl-1", name := "demo", state := "CREATING", workerCount := 2 }

/-- Sample cluster whose state is READY up to case. -/
def readyCluster : Cluster :=
  { id := "cl-1", name := "demo", state := "ready", workerCount := 2 }

/-- Sample cluster whose state is ERROR up to case. -/
def errorCluster : Cluster :=
  { id := "cl-1", name := "demo", state := "Error", workerCount := 2 }

/-- Digit test, as in Go's strconv fast path. -/
def isDigitChar (c : Char) : Bool := '0' ≤ c && c ≤ '9'

/-- Value of a non-empty all-digit character list, `none` otherwise. -/
def digitsVal : List Char → Option Nat
  | [] => none
  | l =>
    if l.all isDigitChar then
      some (l.foldl (fun acc c => 10 * acc + (c.toNat - '0'.toNat)) 0)
    else
      none

/-- Model of `strconv.Atoi`: an optional sign followed by at least one
decimal digit parses to the signed value, anything else is an error
(`none`).  Range overflow is not modelled (the inputs at stake are
small worker counts). -/
def goAtoi (s : String) : Option Int :=
  match s.data with
  | [] => none
  | '+' :: rest => (digitsVal rest).map (fun n => (n : Int))
  | '-' :: rest => (digitsVal rest).map (fun n => -(n : Int))
  | l => (digitsVal l).map (fun n => (n : Int))

/-- Modelled from the spec: `checkArgNum` (argument-count validation,
defined elsewhere in this repository and not present under src/) checks
the number of CLI arguments against the count the subcommand usage
string expects and yields an error on a mismatch; the spec groups this
with the input-validation errors that fail fast. -/
def checkArgNum (args : List String) (expected : Nat) (usage : String) :
    Option String :=
  if args.length = expected then none
  else some ("Usage: " ++ usage)

/-- Calls a cluster subcommand issues to its collaborators, in program
order.  Per the spec, tenant/project name resolution is handled by the
request/response collaborator, so `verifyTenant`/`verifyProject` are
recorded alongside the API calls; `getClient` (client construction) and
`readSSHKeyFile` (local file read) are recorded too so that traces are
complete prefixes of the source's call order. -/
inductive CallEvent where
  | getClient
  | verifyTenant
  | verifyProject
  | readSSHKeyFile
  | projectsCreateCluster
  | clustersResize
  | clustersDelete
  | waitTaskOperation
  | waitCluster
deriving DecidableEq, Repr

/-- Outcome of a command function: the returned error value, or the
runtime panic that escapes from `waitForCluster`'s nil dereference. -/
inductive CmdOutcome where
  | ok
  | err (msg : String)
  | panic
deriving DecidableEq, Repr

/-- A task handle returned by a mutating API call (`photon.Task`):
its ID and the ID of the entity it operates on. -/
structure TaskHandle where
  id : String
  entityId : String
deriving DecidableEq, Repr

/-- Result and collaborator-call trace of a command run. -/
structure CmdTrace where
  result : CmdOutcome
  calls : List CallEvent
deriving DecidableEq, Repr

/-- Injected results of the external collaborators used by
`resizeCluster`: client construction, the resize API call, task
polling (`waitOnTaskOperation`), the confirmation prompt, and the
fetch results consumed by `waitForCluster`. -/
structure ResizeEnv where
  getClient : Except String Unit
  resize : Except String TaskHandle
  waitTask : Except String Unit
  confirm : Bool
  clusterFetches : Nat → FetchResult

/-- Maps a finished `waitForCluster` run to the enclosing command's
outcome: a READY success means the command continues and returns nil,
any error is returned, and the nil dereference escapes as a panic. -/
def waitOutcomeToCmd : WaitOutcome → CmdOutcome
  | .success _ => .ok
  | .stateError m => .err m
  | .fetchError e => .err e
  | .timeout m => .err m
  | .nilDeref => .panic

/-- `resizeCluster` (clusters.go lines 613-671).  Validation of the
cluster ID and the parsed worker count happens before `GetClient` and
before any API call; the resize request, task wait and optional
readiness wait follow in source order. -/
def resizeCluster (args : List String) (waitForReady : Bool)
    (env : ResizeEnv) : CmdTrace :=
  match checkArgNum args 2 "cluster resize <id> <new worker count> [<options>]" with
  | some e => { result := .err e, calls := [] }
  | none =>
    let cluster_id := args.getD 0 ""
    let worker_count_string := args.getD 1 ""
    let parsed := goAtoi worker_count_string
    if cluster_id.length = 0 ∨ parsed = none ∨ parsed.getD 0 ≤ 0 then
      { result := .err "Provide a valid cluster ID and worker count", calls := [] }
    else
      match env.getClient with
      | .error e => { result := .err e, calls := [.getClient] }
      | .ok _ =>
        if env.confirm then
          match env.resize with
          | .error e => { result := .err e, calls := [.getClient, .clustersResize] }
          | .ok _task =>
            match env.waitTask with
            | .error e =>
              { result := .err e,
                calls := [.getClient, .clustersResize, .waitTaskOperation] }
            | .ok _ =>
              if waitForReady then
                { result := waitOutcomeToCmd
                    (waitForCluster cluster_id env.clusterFetches).outcome,
                  calls := [.getClient, .clustersResize, .waitTaskOperation,
                    .waitCluster] }
              else
                { result := .ok,
                  calls := [.getClient, .clustersResize, .waitTaskOperation] }
        else { result := .ok, calls := [.getClient] }

/-- Injected collaborator results for `deleteCluster`. -/
structure DeleteEnv where
  getClient : Except String Unit
  delete : Except String TaskHandle
  waitTask : Except String Unit
  confirm : Bool

/-- `deleteCluster` (clusters.go lines 675-711).  Note the argument
count check: on a `checkArgNum` error the source executes `return nil`,
so the error is swallowed and the function reports success having done
nothing. -/
def deleteCluster (args : List String) (env : DeleteEnv) : CmdTrace :=
  match checkArgNum args 1 "cluster delete <id>" with
  | some _ => { result := .ok, calls := [] }
  | none =>
    let cluster_id := args.getD 0 ""
    if cluster_id.length = 0 then
      { result := .err "Please provide a valid cluster ID", calls := [] }
    else
      match env.getClient with
      | .error e => { result := .err e, calls := [.getClient] }
      | .ok _ =>
        if env.confirm then
          match env.delete with
          | .error e => { result := .err e, calls := [.getClient, .clustersDelete] }
          | .ok _task =>
            match env.waitTask with
            | .error e =>
              { result := .err e,
                calls := [.getClient, .clustersDelete, .waitTaskOperation] }
            | .ok _ =>
              { result := .ok,
                calls := [.getClient, .clustersDelete, .waitTaskOperation] }
        else { result := .ok, calls := [.getClient] }

/-- Extended-property keys (constants of the external photon SDK; their
concrete values are immaterial to the claims, only their identity). -/
def extendedPropertyDNS : String := "dns"

def extendedPropertyGateway : String := "gateway"

def extendedPropertyNetMask : String := "netmask"

def extendedPropertySSHKey : String := "ssh_key"

def extendedPropertyMasterIP : String := "master_ip"

def extendedPropertyContainerNetwork : String := "container_network"

def extendedPropertyETCDIP1 : String := "etcd_ip1"

def extendedPropertyETCDIP2 : String := "etcd_ip2"

def extendedPropertyETCDIP3 : String := "etcd_ip3"

def extendedPropertyZookeeperIP1 : String := "zookeeper_ip1"

def extendedPropertyZookeeperIP2 : String := "zookeeper_ip2"

def extendedPropertyZookeeperIP3 : String := "zookeeper_ip3"

/-- `const DEFAULT_WORKER_COUNT = 1` in `createCluster`. -/
def DEFAULT_WORKER_COUNT : Int := 1

/-- The `photon.ClusterCreateSpec` assembled by `createCluster`
(clusters.go lines 422-430); the Go map of extended properties is
modelled as an association list in insertion order. -/
structure ClusterCreateSpec where
  name : String
  type : String
  vmFlavor : String
  diskFlavor : String
  networkId : String
  workerCount : Int
  batchSizeWorker : Int
  extendedProperties : List (String × String)
deriving DecidableEq, Repr

/-- The inputs of `createCluster`: CLI arguments and the flag values.
The interactive prompt blocks (`askForInput`, guarded by
`!utils.IsNonInteractive(c)`) are presentation-layer glue outside the
spec's scope (spec section 1 non-goals), so the model follows the
non-interactive execution in which those blocks are skipped; each flag
field holds the value the corresponding Go variable has when the
validation checks run. -/
structure CreateFlags where
  args : List String
  name : String
  clusterType : String
  vmFlavor : String
  diskFlavor : String
  networkId : String
  workerCount : Int
  dns : String
  gateway : String
  netmask : String
  masterIp : String
  containerNetwork : String
  zookeeper1 : String
  zookeeper2 : String
  zookeeper3 : String
  etcd1 : String
  etcd2 : String
  etcd3 : String
  batchSize : Int
  sshKey : String
  waitForReady : Bool

/-- Injected collaborator results for `createCluster`: client
construction, tenant and project resolution (per the spec these are
request/response collaborator calls), the SSH-key file read, the
confirmation prompt, the create API call, task polling, and the fetch
results consumed by `waitForCluster`. -/
structure CreateEnv where
  getClient : Except String Unit
  tenant : Except String String
  project : Except String String
  readSSHKey : Except String String
  confirm : Bool
  createCall : Except String TaskHandle
  waitTask : Except String Unit
  clusterFetches : Nat → FetchResult

/-- Result, call trace and the create spec handed to
`Projects.CreateCluster` (if the submission was reached). -/
structure CreateTrace where
  result : CmdOutcome
  calls : List CallEvent
  submittedSpec : Option ClusterCreateSpec
deriving DecidableEq, Repr

/-- The cluster-type switch of `createCluster` (clusters.go lines
331-420), non-interactive path: extends the extended-property list per
cluster type, or yields the unsupported-type error.  `upType` is the
already-uppercased type. -/
def clusterTypeProps (f : CreateFlags) (upType : String)
    (props : List (String × String)) :
    Except String (List (String × String)) :=
  if upType = "KUBERNETES" then
    .ok (props ++ [(extendedPropertyMasterIP, f.masterIp),
      (extendedPropertyContainerNetwork, f.containerNetwork),
      (extendedPropertyETCDIP1, f.etcd1)] ++
      (if f.etcd2.length ≠ 0 then
        [(extendedPropertyETCDIP2, f.etcd2)] ++
        (if f.etcd3.length ≠ 0 then [(extendedPropertyETCDIP3, f.etcd3)] else [])
      else []))
  else if upType = "MESOS" then
    .ok (props ++ [(extendedPropertyZookeeperIP1, f.zookeeper1)] ++
      (if f.zookeeper2.length ≠ 0 then
        [(extendedPropertyZookeeperIP2, f.zookeeper2)] ++
        (if f.zookeeper3.length ≠ 0 then
          [(extendedPropertyZookeeperIP3, f.zookeeper3)] else [])
      else []))
  else if upType = "SWARM" then
    .ok (props ++ [(extendedPropertyETCDIP1, f.etcd1)] ++
      (if f.etcd2.length ≠ 0 then
        [(extendedPropertyETCDIP2, f.etcd2)] ++
        (if f.etcd3.length ≠ 0 then [(extendedPropertyETCDIP3, f.etcd3)] else [])
      else []))
  else
    .error ("Unsupported cluster type: " ++ upType)

/-- `createCluster` (clusters.go lines 219-484), non-interactive path.
Source order: argument-count check; client construction; tenant and
project resolution; name/type validation; worker-count defaulting;
DNS/gateway/netmask validation; extended-property assembly including
the optional SSH-key file read; the cluster-type switch; spec assembly;
then, if confirmed, the create API call, task wait, and the optional
readiness wait. -/
def createCluster (f : CreateFlags) (env : CreateEnv) : CreateTrace :=
  match checkArgNum f.args 0 "cluster create [<options>]" with
  | some e => { result := .err e, calls := [], submittedSpec := none }
  | none =>
  match env.getClient with
  | .error e => { result := .err e, calls := [.getClient], submittedSpec := none }
  | .ok _ =>
  match env.tenant with
  | .error e =>
    { result := .err e, calls := [.getClient, .verifyTenant], submittedSpec := none }
  | .ok _tenantId =>
  match env.project with
  | .error e =>
    { result := .err e, calls := [.getClient, .verifyTenant, .verifyProject],
      submittedSpec := none }
  | .ok _projectId =>
  let baseCalls : List CallEvent := [.getClient, .verifyTenant, .verifyProject]
  if f.name.length = 0 ∨ f.clusterType.length = 0 then
    { result := .err "Provide a valid cluster name and type",
      calls := baseCalls, submittedSpec := none }
  else
  let worker_count :=
    if f.workerCount = 0 then DEFAULT_WORKER_COUNT else f.workerCount
  if f.dns.length = 0 ∨ f.gateway.length = 0 ∨ f.netmask.length = 0 then
    { result := .err "Provide a valid DNS, gateway, and netmask",
      calls := baseCalls, submittedSpec := none }
  else
  let props0 := [(extendedPropertyDNS, f.dns),
    (extendedPropertyGateway, f.gateway),
    (extendedPropertyNetMask, f.netmask)]
  let sshStep : Except String (List (String × String) × List CallEvent) :=
    if f.sshKey.length ≠ 0 then
      match env.readSSHKey with
      | .ok content =>
        .ok (props0 ++ [(extendedPropertySSHKey, content)],
          baseCalls ++ [.readSSHKeyFile])
      | .error e => .error e
    else .ok (props0, baseCalls)
  match sshStep with
  | .error e =>
    { result := .err e, calls := baseCalls ++ [.readSSHKeyFile],
      submittedSpec := none }
  | .ok (props1, calls1) =>
  let upType := goToUpper f.clusterType
  match clusterTypeProps f upType props1 with
  | .error e => { result := .err e, calls := calls1, submittedSpec := none }
  | .ok props =>
  let spec : ClusterCreateSpec :=
    { name := f.name, type := upType, vmFlavor := f.vmFlavor,
      diskFlavor := f.diskFlavor, networkId := f.networkId,
      workerCount := worker_count, batchSizeWorker := f.batchSize,
      extendedProperties := props }
  if env.confirm then
    match env.createCall with
    | .error e =>
      { result := .err e, calls := calls1 ++ [.projectsCreateCluster],
        submittedSpec := some spec }
    | .ok task =>
      match env.waitTask with
      | .error e =>
        { result := .err e,
          calls := calls1 ++ [.projectsCreateCluster, .waitTaskOperation],
          submittedSpec := some spec }
      | .ok _ =>
        if f.waitForReady then
          { result := waitOutcomeToCmd
              (waitForCluster task.entityId env.clusterFetches).outcome,
            calls := calls1 ++ [.projectsCreateCluster, .waitTaskOperation,
              .waitCluster],
            submittedSpec := some spec }
        else
          { result := .ok,
            calls := calls1 ++ [.projectsCreateCluster, .waitTaskOperation],
            submittedSpec := some spec }
  else { result := .ok, calls := calls1, submittedSpec := none }

/-- Fetch sequence whose very first result is a transient error; later
fetches would report READY. -/
def seqFirstFails : Nat → FetchResult :=
  fun i => if i = 0 then .fail "connection refused" else .ok readyCluster

/-- Fetch sequence with a single isolated transient error between two
successful fetches, the second of which reports READY: every maximal
run of consecutive errors has length 1 and a terminal success follows. -/
def seqIsolatedErrorThenReady : Nat → FetchResult :=
  fun i =>
    if i = 0 then .ok creatingCluster
    else if i = 1 then .fail "i/o timeout"
    else .ok readyCluster

/-- Fetch sequence in which every fetch fails: 4 or more consecutive
transient errors. -/
def seqAllFetchesFail : Nat → FetchResult :=
  fun _ => .fail "gateway timeout"

/-- Fetch sequence with one transient error and otherwise non-terminal
successes: no terminal state, and never more than 1 accumulated
failure. -/
def seqErrorThenCreating : Nat → FetchResult :=
  fun i => if i = 0 then .fail "connection reset" else .ok creatingCluster

/-- Fetch sequence in which every fetch reports READY. -/
def seqAllReady : Nat → FetchResult :=
  fun _ => .ok readyCluster

/-- Fetch sequence in which every fetch reports a non-terminal state. -/
def seqAllCreating : Nat → FetchResult :=
  fun _ => .ok creatingCluster

/-- Fetch sequence: one non-terminal success, then READY. -/
def seqCreatingThenReady : Nat → FetchResult :=
  fun i => if i = 0 then .ok creatingCluster else .ok readyCluster

/-- Fetch sequence: one non-terminal success, then ERROR. -/
def seqCreatingThenError : Nat → FetchResult :=
  fun i => if i = 0 then .ok creatingCluster else .ok errorCluster

/-- A resize environment in which every collaborator call succeeds. -/
def okResizeEnv : ResizeEnv :=
  { getClient := .ok (), resize := .ok ⟨"task-1", "cl-1"⟩,
    waitTask := .ok (), confirm := true,
    clusterFetches := fun _ => .ok readyCluster }

/-- A delete environment in which every collaborator call succeeds. -/
def okDeleteEnv : DeleteEnv :=
  { getClient := .ok (), delete := .ok ⟨"task-1", "cl-1"⟩,
    waitTask := .ok (), confirm := true }

/-- A create environment in which every collaborator call succeeds and
the confirmation prompt answers yes. -/
def okCreateEnv : CreateEnv :=
  { getClient := .ok (), tenant := .ok "t-1", project := .ok "p-1",
    readSSHKey := .ok "ssh-rsa AAAA", confirm := true,
    createCall := .ok ⟨"task-1", "cl-1"⟩, waitTask := .ok (),
    clusterFetches := fun _ => .ok readyCluster }

/-- A complete, valid set of create flags for a SWARM cluster with an
unspecified (zero) worker count. -/
def baseCreateFlags : CreateFlags :=
  { args := [], name := "demo", clusterType := "SWARM", vmFlavor := "",
    diskFlavor := "", networkId := "", workerCount := 0,
    dns := "10.0.0.2", gateway := "10.0.0.1", netmask := "255.255.255.0",
    masterIp := "", containerNetwork := "", zookeeper1 := "",
    zookeeper2 := "", zookeeper3 := "", etcd1 := "10.0.0.3",
    etcd2 := "", etcd3 := "", batchSize := 0, sshKey := "",
    waitForReady := false }

/-- The same flags with an empty cluster name (invalid input). -/
def noNameCreateFlags : CreateFlags :=
  { baseCreateFlags with name := "" }

/-- The spec `createCluster baseCreateFlags okCreateEnv` hands to the
create API call: the zero worker count has been defaulted to 1. -/
def submittedSwarmSpec : ClusterCreateSpec :=
  { name := "demo", type := "SWARM", vmFlavor := "", diskFlavor := "",
    networkId := "", workerCount := 1, batchSizeWorker := 0,
    extendedProperties := [(extendedPropertyDNS, "10.0.0.2"),
      (extendedPropertyGateway, "10.0.0.1"),
      (extendedPropertyNetMask, "255.255.255.0"),
      (extendedPropertyETCDIP1, "10.0.0.3")] }

/-- Unfolding one loop iteration on a successful READY fetch. -/
theorem waitLoop_ready_step (id : String) (seq : Nat → FetchResult)
    (n i numErr : Nat) (c : Cluster)
    (hc : seq i = .ok c) (hready : goToUpper c.state = "READY") :
    waitLoop id seq (n + 1) i numErr =
      { outcome := .success c, fetches := i + 1, sleeps := i,
        stopSignals := 1, joined := true } := by
  have hE : ¬ goToUpper c.state = "ERROR" := by rw [hready]; decide
  simp [waitLoop, hc, hE, hready]

/-- Unfolding one loop iteration on a successful ERROR fetch. -/
theorem waitLoop_error_step (id : String) (seq : Nat → FetchResult)
    (n i numErr : Nat) (c : Cluster)
    (hc : seq i = .ok c) (herr : goToUpper c.state = "ERROR") :
    waitLoop id seq (n + 1) i numErr =
      { outcome := .stateError (clusterErrorMsg id), fetches := i + 1,
        sleeps := i, stopSignals := 1, joined := true } := by
  simp [waitLoop, hc, herr]

/-- The loop passes over a block of successful non-terminal fetches
unchanged except for the iteration counters. -/
theorem waitLoop_skip (id : String) (seq : Nat → FetchResult) :
    ∀ (k n i numErr : Nat), k ≤ n →
      (∀ j, j < k → isNonTerminalOk (seq (i + j)) = true) →
      waitLoop id seq n i numErr = waitLoop id seq (n - k) (i + k) numErr := by
  intro k
  induction k with
  | zero => intro n i numErr _ _; simp
  | succ k ih =>
    intro n i numErr hk h
    match n, hk with
    | Nat.succ n, hk' =>
      have h0 := h 0 (Nat.succ_pos k)
      rw [Nat.add_zero] at h0
      match hseq : seq i with
      | .fail e => rw [hseq] at h0; simp [isNonTerminalOk] at h0
      | .ok c =>
        rw [hseq] at h0
        simp only [isNonTerminalOk, Bool.and_eq_true, Bool.not_eq_true',
          beq_eq_false_iff_ne, ne_eq] at h0
        have step : waitLoop id seq (n + 1) i numErr =
            waitLoop id seq n (i + 1) numErr := by
          simp [waitLoop, hseq, h0.1, h0.2]
        rw [step, ih n (i + 1) numErr (Nat.le_of_succ_le_succ hk')
          (fun j hj => by
            have := h (j + 1) (Nat.succ_lt_succ hj)
            rwa [show i + (j + 1) = i + 1 + j by omega] at this)]
        rw [Nat.succ_sub_succ, show i + (k + 1) = i + 1 + k by omega]

/-- Every non-panicking exit of the loop sets the stop signal exactly
once and joins the reporter. -/
theorem waitLoop_stop_join (id : String) (seq : Nat → FetchResult) :
    ∀ (n i numErr : Nat),
      (waitLoop id seq n i numErr).outcome ≠ .nilDeref →
      (waitLoop id seq n i numErr).stopSignals = 1 ∧
      (waitLoop id seq n i numErr).joined = true := by
  intro n
  induction n with
  | zero => intro i numErr _; exact ⟨rfl, rfl⟩
  | succ n ih =>
    intro i numErr h
    match hseq : seq i with
    | .fail e =>
      by_cases hn : numErr + 1 > taskRetryCount
      · simp [waitLoop, hseq, hn]
      · simp [waitLoop, hseq, hn] at h
    | .ok c =>
      by_cases hE : goToUpper c.state = "ERROR"
      · simp [waitLoop, hseq, hE]
      · by_cases hR : goToUpper c.state = "READY"
        · simp [waitLoop, hseq, hE, hR]
        · have step : waitLoop id seq (n + 1) i numErr =
              waitLoop id seq n (i + 1) numErr := by
            simp [waitLoop, hseq, hE, hR]
          rw [step] at h ⊢
          exact ih (i + 1) numErr h

/-- C1: on a fetch-result sequence whose first result is a transient
error, with the failure count (1) within the retry budget of 3,
`waitForCluster` does NOT guard the nil resource handle: it evaluates
`strings.ToUpper(cluster.State)` on the nil pointer returned by the
failed fetch, a runtime nil dereference, instead of retrying.  This
exhibits the code-level bug behind the claim. -/
theorem waitForCluster_first_fetch_error_nil_deref :
    (waitForCluster "cl-1" seqFirstFails).outcome = .nilDeref := by
  decide

/-- C2: a sequence whose maximal runs of consecutive transient errors
all have length 1 (well within the budget of 3) and which then reports
READY does not make `waitForCluster` return the READY resource: the
single transient error already drives the loop into the nil
dereference.  (Independently, the failure counter `numErr` is never
reset by a successful fetch in the source, so the budget would be
cumulative, not consecutive.) -/
theorem waitForCluster_isolated_error_then_ready_panics :
    (waitForCluster "cl-1" seqIsolatedErrorThenReady).outcome = .nilDeref ∧
    (waitForCluster "cl-1" seqIsolatedErrorThenReady).outcome ≠
      .success readyCluster := by
  decide

/-- C3: on a sequence of 4 or more consecutive transient errors
`waitForCluster` does not abort with the propagated fetch error after
the count exceeds the budget: the very first error already falls
through to the nil dereference, so the budget-exceeded return is never
reached. -/
theorem waitForCluster_all_errors_panic_not_propagate :
    (waitForCluster "cl-1" seqAllFetchesFail).outcome = .nilDeref ∧
    (waitForCluster "cl-1" seqAllFetchesFail).outcome ≠
      .fetchError "gateway timeout" := by
  decide

/-- C4: on every return path of `waitForCluster` (READY success,
resource ERROR, fetch-error budget exceeded, timeout — i.e. every
outcome other than the runtime panic) the stop signal `endAnimation` is
set exactly once and `wg.Wait()` joins the progress reporter before the
function returns. -/
theorem waitForCluster_stops_reporter_on_every_return
    (id : String) (seq : Nat → FetchResult)
    (h : (waitForCluster id seq).outcome ≠ .nilDeref) :
    (waitForCluster id seq).stopSignals = 1 ∧
    (waitForCluster id seq).joined = true :=
  waitLoop_stop_join id seq maxPolls 0 0 h

/-- Witness for C4 at an all-READY fetch sequence. -/
theorem waitForCluster_stops_reporter_on_every_return_witness :
    (waitForCluster "cl-1" seqAllReady).stopSignals = 1 ∧
    (waitForCluster "cl-1" seqAllReady).joined = true :=
  waitForCluster_stops_reporter_on_every_return "cl-1" seqAllReady (by decide)

/-- C5: if the loop reaches a successful fetch whose state equals READY
case-insensitively (all earlier fetches having been successful and
non-terminal, and the 60-minute guard still open), `waitForCluster`
returns that resource with no error on the same iteration: exactly
`i + 1` fetches and `i` sleeps happen, so the inter-poll delay is not
slept again after the READY fetch. -/
theorem waitForCluster_ready_returns_same_iteration
    (id : String) (seq : Nat → FetchResult) (i : Nat) (c : Cluster)
    (hi : i < maxPolls)
    (hpre : ∀ j, j < i → isNonTerminalOk (seq j) = true)
    (hc : seq i = .ok c)
    (hready : goToUpper c.state = "READY") :
    waitForCluster id seq =
      { outcome := .success c, fetches := i + 1, sleeps := i,
        stopSignals := 1, joined := true } := by
  unfold waitForCluster
  rw [waitLoop_skip id seq i maxPolls 0 0 (Nat.le_of_lt hi)
    (fun j hj => by simpa using hpre j hj)]
  obtain ⟨m, hm⟩ : ∃ m, maxPolls - i = m + 1 :=
    ⟨maxPolls - i - 1, by omega⟩
  rw [hm, Nat.zero_add]
  exact waitLoop_ready_step id seq m i 0 c hc hready

/-- Witness for C5: a non-terminal fetch followed by a fetch whose
state is the lowercase string "ready". -/
theorem waitForCluster_ready_returns_same_iteration_witness :
    waitForCluster "cl-1" seqCreatingThenReady =
      { outcome := .success readyCluster, fetches := 2, sleeps := 1,
        stopSignals := 1, joined := true } :=
  waitForCluster_ready_returns_same_iteration "cl-1" seqCreatingThenReady 1
    readyCluster (by decide) (by decide) (by decide) (by decide)

/-- C6: if the loop reaches a successful fetch whose state equals ERROR
case-insensitively, `waitForCluster` immediately returns the error
naming the resource ID and its ERROR state, with exactly `i + 1`
fetches and `i` sleeps: no subsequent fetch and no further sleep. -/
theorem waitForCluster_error_state_aborts_immediately
    (id : String) (seq : Nat → FetchResult) (i : Nat) (c : Cluster)
    (hi : i < maxPolls)
    (hpre : ∀ j, j < i → isNonTerminalOk (seq j) = true)
    (hc : seq i = .ok c)
    (herr : goToUpper c.state = "ERROR") :
    waitForCluster id seq =
      { outcome := .stateError (clusterErrorMsg id), fetches := i + 1,
        sleeps := i, stopSignals := 1, joined := true } := by
  unfold waitForCluster
  rw [waitLoop_skip id seq i maxPolls 0 0 (Nat.le_of_lt hi)
    (fun j hj => by simpa using hpre j hj)]
  obtain ⟨m, hm⟩ : ∃ m, maxPolls - i = m + 1 :=
    ⟨maxPolls - i - 1, by omega⟩
  rw [hm, Nat.zero_add]
  exact waitLoop_error_step id seq m i 0 c hc herr

/-- Witness for C6: a non-terminal fetch followed by a fetch whose
state is the mixed-case string "Error". -/
theorem waitForCluster_error_state_aborts_immediately_witness :
    waitForCluster "cl-1" seqCreatingThenError =
      { outcome := .stateError (clusterErrorMsg "cl-1"), fetches := 2,
        sleeps := 1, stopSignals := 1, joined := true } :=
  waitForCluster_error_state_aborts_immediately "cl-1" seqCreatingThenError 1
    errorCluster (by decide) (by decide) (by decide) (by decide)

/-- Counterexample to C7 as stated: a sequence with a single transient
error (so the retry budget of 3 is never exceeded) and otherwise
non-terminal successes observes no terminal state, yet `waitForCluster`
does not return the timeout error — it hits the nil dereference at the
errored fetch. -/
theorem waitForCluster_one_error_no_timeout :
    (waitForCluster "cl-1" seqErrorThenCreating).outcome = .nilDeref ∧
    (waitForCluster "cl-1" seqErrorThenCreating).outcome ≠
      .timeout timeoutMsg := by
  decide

/-- C7 (amended): if every fetch within the window succeeds with a
non-terminal state (so no terminal state is observed and the
transient-error budget is trivially never exceeded), `waitForCluster`
stops polling after 1800 fetches and returns the distinct timeout
error; 1800 sleeps of the 2-second poll delay amount exactly to the
60-minute poll timeout the loop guard compares elapsed time against. -/
theorem waitForCluster_times_out
    (id : String) (seq : Nat → FetchResult)
    (h : ∀ i, i < maxPolls → isNonTerminalOk (seq i) = true) :
    waitForCluster id seq =
      { outcome := .timeout timeoutMsg, fetches := maxPolls,
        sleeps := maxPolls, stopSignals := 1, joined := true } ∧
    taskPollDelaySec * maxPolls = taskPollTimeoutSec := by
  constructor
  · unfold waitForCluster
    rw [waitLoop_skip id seq maxPolls maxPolls 0 0 Nat.le.refl
      (fun j hj => by simpa using h j hj)]
    simp [waitLoop]
  · decide

/-- Witness for C7 at the everywhere-CREATING fetch sequence. -/
theorem waitForCluster_times_out_witness :
    waitForCluster "cl-1" seqAllCreating =
      { outcome := .timeout timeoutMsg, fetches := maxPolls,
        sleeps := maxPolls, stopSignals := 1, joined := true } ∧
    taskPollDelaySec * maxPolls = taskPollTimeoutSec :=
  waitForCluster_times_out "cl-1" seqAllCreating (fun _ _ => rfl)

/-- Counterexample to C8 as stated: with an empty cluster name (and
every collaborator healthy), `createCluster` does return the validation
error and never submits the create request, but only after the client
construction and the tenant and project resolution calls have been
made — the call trace is not empty, so the validation error is not
raised before any remote call. -/
theorem createCluster_remote_calls_precede_validation :
    (createCluster noNameCreateFlags okCreateEnv).result =
      .err "Provide a valid cluster name and type" ∧
    (createCluster noNameCreateFlags okCreateEnv).calls ≠ [] ∧
    CallEvent.verifyTenant ∈ (createCluster noNameCreateFlags okCreateEnv).calls ∧
    CallEvent.verifyProject ∈ (createCluster noNameCreateFlags okCreateEnv).calls := by
  decide

/-- C8 (amended): in `resizeCluster` an empty cluster ID, a non-numeric
worker count or a non-positive worker count yields the validation error
with an empty collaborator-call trace (before any remote call, and
never retried); in `createCluster` an empty name, type, DNS, gateway or
netmask yields the corresponding validation error and the create
request is never submitted, though the tenant/project resolution calls
have already been made by then. -/
theorem validation_precedes_remote_submission
    (args : List String) (wfr : Bool) (renv : ResizeEnv)
    (f : CreateFlags) (cenv : CreateEnv) (tid pid : String)
    (hargs : args.length = 2)
    (hbad : (args.getD 0 "").length = 0 ∨ goAtoi (args.getD 1 "") = none ∨
      (goAtoi (args.getD 1 "")).getD 0 ≤ 0)
    (hargs0 : f.args.length = 0)
    (hclient : cenv.getClient = .ok ())
    (htenant : cenv.tenant = .ok tid)
    (hproject : cenv.project = .ok pid)
    (hmiss : f.name.length = 0 ∨ f.clusterType.length = 0 ∨
      f.dns.length = 0 ∨ f.gateway.length = 0 ∨ f.netmask.length = 0) :
    resizeCluster args wfr renv =
      { result := .err "Provide a valid cluster ID and worker count",
        calls := [] } ∧
    ((createCluster f cenv).result =
        .err "Provide a valid cluster name and type" ∨
      (createCluster f cenv).result =
        .err "Provide a valid DNS, gateway, and netmask") ∧
    (createCluster f cenv).submittedSpec = none ∧
    (createCluster f cenv).calls =
      [.getClient, .verifyTenant, .verifyProject] := by
  constructor
  · unfold resizeCluster checkArgNum
    rw [if_pos hargs]
    exact if_pos hbad
  · unfold createCluster checkArgNum
    rw [if_pos hargs0, hclient, htenant, hproject]
    by_cases hnt : f.name.length = 0 ∨ f.clusterType.length = 0
    · simp [hnt]
    · have hd : f.dns.length = 0 ∨ f.gateway.length = 0 ∨
          f.netmask.length = 0 := by
        rcases hmiss with h1 | h1 | h1 | h1 | h1
        · exact absurd (Or.inl h1) hnt
        · exact absurd (Or.inr h1) hnt
        · exact Or.inl h1
        · exact Or.inr (Or.inl h1)
        · exact Or.inr (Or.inr h1)
      simp [hnt, hd]

/-- Witness for C8: a resize invocation with the non-numeric worker
count "abc", and a create invocation with an empty name. -/
theorem validation_precedes_remote_submission_witness :
    resizeCluster ["cl-1", "abc"] false okResizeEnv =
      { result := .err "Provide a valid cluster ID and worker count",
        calls := [] } ∧
    ((createCluster noNameCreateFlags okCreateEnv).result =
        .err "Provide a valid cluster name and type" ∨
      (createCluster noNameCreateFlags okCreateEnv).result =
        .err "Provide a valid DNS, gateway, and netmask") ∧
    (createCluster noNameCreateFlags okCreateEnv).submittedSpec = none ∧
    (createCluster noNameCreateFlags okCreateEnv).calls =
      [.getClient, .verifyTenant, .verifyProject] :=
  validation_precedes_remote_submission ["cl-1", "abc"] false okResizeEnv
    noNameCreateFlags okCreateEnv "t-1" "p-1" (by decide) (by decide)
    (by decide) rfl rfl rfl (by decide)

/-- C9: when `deleteCluster` is invoked with an argument-list length
other than 1, the `checkArgNum` error is swallowed — the source runs
`return nil` — so the command reports success having made no
collaborator call at all. -/
theorem deleteCluster_swallows_arg_count_error
    (args : List String) (env : DeleteEnv) (h : args.length ≠ 1) :
    deleteCluster args env = { result := .ok, calls := [] } := by
  unfold deleteCluster checkArgNum
  simp [h]

/-- Witness for C9 at the empty argument list. -/
theorem deleteCluster_swallows_arg_count_error_witness :
    deleteCluster [] okDeleteEnv = { result := .ok, calls := [] } :=
  deleteCluster_swallows_arg_count_error [] okDeleteEnv (by decide)

/-- C10: whenever `createCluster` reaches the create API call, the
submitted spec carries worker count 1 (`DEFAULT_WORKER_COUNT`) if the
worker count was zero after flag parsing, and the supplied worker count
unchanged otherwise. -/
theorem createCluster_worker_count_defaulted
    (f : CreateFlags) (env : CreateEnv) (spec : ClusterCreateSpec)
    (h : (createCluster f env).submittedSpec = some spec) :
    spec.workerCount = (if f.workerCount = 0 then 1 else f.workerCount) := by
  unfold createCluster at h
  repeat' split at h
  all_goals simp_all [DEFAULT_WORKER_COUNT]
  all_goals split at h
  all_goals simp_all [DEFAULT_WORKER_COUNT]
  all_goals subst h
  all_goals simp

/-- Witness for C10: valid SWARM flags with worker count 0 submit a
spec with worker count 1. -/
theorem createCluster_worker_count_defaulted_witness :
    submittedSwarmSpec.workerCount =
      (if baseCreateFlags.workerCount = 0 then 1 else baseCreateFlags.workerCount) :=
  createCluster_worker_count_defaulted baseCreateFlags okCreateEnv
    submittedSwarmSpec (by decide)

end PhotonCLI
